import Mathlib

/-!
Verification of the HostScore frontend (SvelteKit) and the parts of its
assessment/entitlement backend that the repository documents.

The TypeScript sources are shallowly embedded: pure functions become Lean
functions, JSON values flowing through dynamically-typed code are modelled by
an explicit `JSValue` type with JavaScript truthiness, and fallible paths
return explicit result types.  Numbers that the code only shuttles around are
modelled as `Int` or `Rat`; counts as `Nat`.  JavaScript strings are modelled
as `String`, except in `withBase` where character-level reasoning is needed
and `List Char` is used.
-/

namespace HostScore

/-- A JSON value as JavaScript sees it.  Used wherever the TypeScript code
works with untyped `response.json()` payloads. -/
inductive JSValue where
  | null
  | bool (b : Bool)
  | num (n : Int)
  | str (s : String)
  | arr (elems : List JSValue)
  | obj (fields : List (String × JSValue))

/-- JavaScript truthiness of a value (`Boolean(v)`). -/
def JSValue.truthy : JSValue → Bool
  | .null => false
  | .bool b => b
  | .num n => n != 0
  | .str s => s != ""
  | .arr _ => true
  | .obj _ => true

/-- Property access `v.key` on a JSON value: defined for objects, `undefined`
(here `none`) for every other shape. -/
def JSValue.optGet (v : JSValue) (key : String) : Option JSValue :=
  match v with
  | .obj fields => (fields.find? (fun kv => kv.1 == key)).map Prod.snd
  | _ => none

/-- Optional chaining `data?.key`: `undefined` when `data` is `null`/absent. -/
def jsGet (data : Option JSValue) (key : String) : Option JSValue :=
  match data with
  | some v => v.optGet key
  | none => none

/-- The coercion `Boolean(x)` where `x` may be `undefined` (`none`). -/
def jsBoolean : Option JSValue → Bool
  | none => false
  | some v => v.truthy

/-- JavaScript report tier, `type ReportType = 'free' | 'paid'`
(frontend/src/lib/types.ts). -/
inductive ReportType where
  | free
  | paid
deriving DecidableEq

/-- The raw credit summary shape accepted by `mapCreditSummary`
(src/lib/api.ts): `{ available?: number | null; next_expiration?: string | null }`.
`none` models an absent or `null` field. -/
structure RawCreditSummary where
  available : Option Int
  next_expiration : Option String

/-- `CreditSummary` (frontend/src/lib/types.ts). -/
structure CreditSummary where
  available : Int
  nextExpiration : Option String

/-- `mapCreditSummary` (src/lib/api.ts): `available := payload?.available ?? 0`,
`nextExpiration := payload?.next_expiration ?? null`. -/
def mapCreditSummary (payload : Option RawCreditSummary) : CreditSummary :=
  { available := (payload.bind RawCreditSummary.available).getD 0
    nextExpiration := payload.bind RawCreditSummary.next_expiration }

/-- `SessionInfo` (frontend/src/lib/types.ts). -/
structure SessionInfo where
  authenticated : Bool
  email : Option String := none
  credits : Option CreditSummary := none

/-- The parsed `GET /auth/session` payload as `fetchSession` reads it.  The
`authenticated` field is kept fully dynamic (`Option JSValue`, `none` =
absent) because the code applies `Boolean(data?.authenticated)`; `email` and
`credits` are modelled at their declared TypeScript shapes, with `none` for
an absent or `null` field (a present `credits` object is always truthy). -/
structure SessionPayload where
  authenticated : Option JSValue
  email : Option String
  credits : Option RawCreditSummary

/-- `fetchSession` (src/lib/api.ts lines 231-247): on a non-ok response it
returns `{ authenticated: false }`; otherwise it builds a `SessionInfo` from
the parsed payload, where a missing payload (`data = none`, i.e. the JSON
body was `null`) yields `authenticated = Boolean(undefined) = false`. -/
def fetchSession (ok : Bool) (data : Option SessionPayload) : SessionInfo :=
  if !ok then
    { authenticated := false }
  else
    { authenticated := jsBoolean (data.bind SessionPayload.authenticated)
      email := data.bind SessionPayload.email
      credits := (data.bind SessionPayload.credits).map
        (fun c => mapCreditSummary (some c)) }

/-- `ImpactLevel` (frontend/src/lib/types.ts): `'high' | 'medium' | 'low'`. -/
inductive ImpactLevel where
  | high
  | medium
  | low
deriving DecidableEq

/-- `RawSectionScores` (src/lib/api.ts).  Score values are modelled as `Rat`. -/
structure RawSectionScores where
  photos : Rat
  copy : Rat
  amenities_clarity : Rat
  trust_signals : Rat

/-- `RawPhotoStats` (src/lib/api.ts).  `none` models an absent or `null`
optional field; counts are modelled as naturals. -/
structure RawPhotoStats where
  count : Nat
  coverage : Option (List String)
  missing_coverage : Option (List String)
  key_spaces_covered : Option Nat
  key_spaces_total : Option Nat
  has_exterior_night : Option Bool
  alt_text_ratio : Option Rat
  uses_legacy_gallery : Option Bool
  key_space_metrics_supported : Option Bool

/-- `RawCopyStats` (src/lib/api.ts). -/
structure RawCopyStats where
  word_count : Nat
  flesch : Option Rat
  second_person_pct : Option Rat
  has_sections : Bool

/-- `RawAmenityAudit` (src/lib/api.ts). -/
structure RawAmenityAudit where
  listed : Option (List String)
  text_hits : Option (List String)
  likely_present_not_listed : Option (List String)
  listed_no_text_evidence : Option (List String)

/-- `RawTopFix` (src/lib/api.ts). -/
structure RawTopFix where
  impact : Option ImpactLevel
  reason : String
  how_to_fix : String

/-- `RawTrustSignals` (src/lib/api.ts). -/
structure RawTrustSignals where
  review_count : Option Nat
  review_snippets : Option (List String)
  has_house_rules : Option Bool
  house_rule_count : Option Nat
  has_summary : Option Bool
  summary_length : Option Nat
  description_length : Option Nat

/-- `RawAssessmentResponse` (src/unnamed/part_001, the api module). -/
structure RawAssessmentResponse where
  overall : Rat
  section_scores : RawSectionScores
  photo_stats : RawPhotoStats
  copy_stats : RawCopyStats
  amenities : RawAmenityAudit
  trust_signals : RawTrustSignals
  top_fixes : Option (List RawTopFix)
  bonus_summary : Option String
  owner_overview : Option String

/-- `RawReportMeta` (src/unnamed/part_001 lines 82-89). -/
structure RawReportMeta where
  report_type : ReportType
  is_paid : Bool
  credit_id : Option String
  hidden_fix_count : Nat
  credits_remaining : Option Int
  next_credit_expiration : Option String

/-- `RawReportEnvelope` (src/unnamed/part_001): `{ report, meta }`. -/
structure RawReportEnvelope where
  report : RawAssessmentResponse
  meta : RawReportMeta

/-- `SectionScores` (frontend/src/lib/types.ts), camel-cased. -/
structure SectionScores where
  photos : Rat
  copy : Rat
  amenitiesClarity : Rat
  trustSignals : Rat

/-- `PhotoStats` (frontend/src/lib/types.ts). -/
structure PhotoStats where
  count : Nat
  coverage : List String
  missingCoverage : List String
  keySpacesCovered : Nat
  keySpacesTotal : Nat
  hasExteriorNight : Bool
  altTextRatio : Option Rat
  usesLegacyGallery : Bool
  keySpaceMetricsSupported : Bool

/-- `CopyStats` (frontend/src/lib/types.ts). -/
structure CopyStats where
  wordCount : Nat
  flesch : Option Rat
  secondPersonPct : Option Rat
  hasSections : Bool

/-- `AmenityAudit` (frontend/src/lib/types.ts). -/
structure AmenityAudit where
  listed : List String
  textHits : List String
  likelyPresentNotListed : List String
  listedNoTextEvidence : List String

/-- `TopFix` (frontend/src/lib/types.ts). -/
structure TopFix where
  impact : ImpactLevel
  reason : String
  howToFix : String

/-- `TrustSignals` (frontend/src/lib/types.ts). -/
structure TrustSignals where
  reviewCount : Nat
  reviewSnippets : List String
  hasHouseRules : Bool
  houseRuleCount : Nat
  hasSummary : Bool
  summaryLength : Nat
  descriptionLength : Nat

/-- `Assessment` (frontend/src/lib/types.ts). -/
structure Assessment where
  overall : Rat
  sectionScores : SectionScores
  photoStats : PhotoStats
  copyStats : CopyStats
  trustSignals : TrustSignals
  amenities : AmenityAudit
  topFixes : List TopFix
  bonusSummary : Option String := none
  ownerOverview : Option String := none

/-- `mapSectionScores` (src/lib/api.ts). -/
def mapSectionScores (scores : RawSectionScores) : SectionScores :=
  { photos := scores.photos
    copy := scores.copy
    amenitiesClarity := scores.amenities_clarity
    trustSignals := scores.trust_signals }

/-- `mapPhotoStats` (src/unnamed/part_001 lines 103-113).  `?? x` becomes
`Option.getD x`; `Boolean(v)` on an optional boolean becomes `getD false`;
the `typeof stats.alt_text_ratio === 'number'` test keeps a present numeric
value and turns everything else into `null`. -/
def mapPhotoStats (stats : RawPhotoStats) : PhotoStats :=
  { count := stats.count
    coverage := stats.coverage.getD []
    missingCoverage := stats.missing_coverage.getD []
    keySpacesCovered := stats.key_spaces_covered.getD 0
    keySpacesTotal := stats.key_spaces_total.getD 5
    hasExteriorNight := stats.has_exterior_night.getD false
    altTextRatio := stats.alt_text_ratio
    usesLegacyGallery := stats.uses_legacy_gallery.getD false
    keySpaceMetricsSupported := stats.key_space_metrics_supported.getD true }

/-- `mapCopyStats` (src/lib/api.ts). -/
def mapCopyStats (stats : RawCopyStats) : CopyStats :=
  { wordCount := stats.word_count
    flesch := stats.flesch
    secondPersonPct := stats.second_person_pct
    hasSections := stats.has_sections }

/-- `mapAmenityAudit` (src/lib/api.ts). -/
def mapAmenityAudit (audit : RawAmenityAudit) : AmenityAudit :=
  { listed := audit.listed.getD []
    textHits := audit.text_hits.getD []
    likelyPresentNotListed := audit.likely_present_not_listed.getD []
    listedNoTextEvidence := audit.listed_no_text_evidence.getD [] }

/-- `mapTrustSignals` (src/lib/api.ts). -/
def mapTrustSignals (signals : RawTrustSignals) : TrustSignals :=
  { reviewCount := signals.review_count.getD 0
    reviewSnippets := signals.review_snippets.getD []
    hasHouseRules := signals.has_house_rules.getD false
    houseRuleCount := signals.house_rule_count.getD 0
    hasSummary := signals.has_summary.getD false
    summaryLength := signals.summary_length.getD 0
    descriptionLength := signals.description_length.getD 0 }

/-- `mapTopFixes` (src/lib/api.ts): `(fixes ?? []).map(...)` with
`impact ?? 'medium'`. -/
def mapTopFixes (fixes : Option (List RawTopFix)) : List TopFix :=
  (fixes.getD []).map (fun fix =>
    { impact := fix.impact.getD ImpactLevel.medium
      reason := fix.reason
      howToFix := fix.how_to_fix })

/-- `mapAssessment` (src/unnamed/part_001 lines 146-156). -/
def mapAssessment (payload : RawAssessmentResponse) : Assessment :=
  { overall := payload.overall
    sectionScores := mapSectionScores payload.section_scores
    photoStats := mapPhotoStats payload.photo_stats
    copyStats := mapCopyStats payload.copy_stats
    trustSignals := mapTrustSignals payload.trust_signals
    amenities := mapAmenityAudit payload.amenities
    topFixes := mapTopFixes payload.top_fixes
    bonusSummary := payload.bonus_summary
    ownerOverview := payload.owner_overview }

/-- `ReportMeta` (frontend/src/lib/types.ts). -/
structure ReportMeta where
  reportType : ReportType
  isPaid : Bool
  creditId : Option String
  hiddenFixCount : Nat
  creditsRemaining : Option Int
  nextCreditExpiration : Option String

/-- `mapReportMeta` (src/unnamed/part_001 lines 158-165). -/
def mapReportMeta (meta : RawReportMeta) : ReportMeta :=
  { reportType := meta.report_type
    isPaid := meta.is_paid
    creditId := meta.credit_id
    hiddenFixCount := meta.hidden_fix_count
    creditsRemaining := meta.credits_remaining
    nextCreditExpiration := meta.next_credit_expiration }

/-- `ReportEnvelope` (frontend/src/lib/types.ts). -/
structure ReportEnvelope where
  report : Assessment
  meta : ReportMeta

/-- `AssessmentError` (frontend/src/lib/types.ts): `{ status, message }`. -/
structure AssessmentError where
  status : Nat
  message : String

/-- `AssessmentPayload` (frontend/src/lib/types.ts):
`{ url, reportType, force? }`. -/
structure AssessmentPayload where
  url : String
  reportType : ReportType
  force : Option Bool

/-- String form of a `ReportType` as serialized into JSON. -/
def reportTypeStr : ReportType → String
  | .free => "free"
  | .paid => "paid"

/-- The JSON body `assessListing` posts to `/assess`
(src/unnamed/part_001 lines 188-192): the object literal
`apiBody = (url, report_type, force ?? false)` rendered as an ordered list of
JSON fields, exactly the keys `JSON.stringify` emits. -/
def assessRequestBody (payload : AssessmentPayload) : List (String × JSValue) :=
  [("url", JSValue.str payload.url),
   ("report_type", JSValue.str (reportTypeStr payload.reportType)),
   ("force", JSValue.bool (payload.force.getD false))]

/-- A JSON field that is present exactly when the optional value is. -/
def optField (key : String) (v : Option JSValue) : List (String × JSValue) :=
  match v with
  | some x => [(key, x)]
  | none => []

/-- The JSON fields of a `RawReportMeta` object, in interface declaration
order (src/unnamed/part_001 lines 82-89): required fields are always present,
optional ones exactly when set. -/
def rawReportMetaFields (m : RawReportMeta) : List (String × JSValue) :=
  [("report_type", JSValue.str (reportTypeStr m.report_type)),
   ("is_paid", JSValue.bool m.is_paid)]
  ++ optField "credit_id" (m.credit_id.map JSValue.str)
  ++ [("hidden_fix_count", JSValue.num (Int.ofNat m.hidden_fix_count))]
  ++ optField "credits_remaining" (m.credits_remaining.map JSValue.num)
  ++ optField "next_credit_expiration" (m.next_credit_expiration.map JSValue.str)

/-- The HTTP response `assessListing` observes for its POST to `/assess`.
`errorJson` is the `response.json()` result consulted on the non-ok path
(`none` models a JSON parse failure, which the code swallows); `envelopeJson`
is the same body read as the typed `RawReportEnvelope` on the ok path
(`none` models a parse failure there, which rejects the promise). -/
structure AssessHttpResponse where
  ok : Bool
  status : Nat
  statusText : String
  errorJson : Option JSValue
  envelopeJson : Option RawReportEnvelope

/-- How `assessListing` settles: resolve with a mapped envelope, throw a typed
`AssessmentError`, or reject with the raw JSON parse error of an ok response. -/
inductive AssessOutcome where
  | success (envelope : ReportEnvelope)
  | failure (err : AssessmentError)
  | parseCrash

/-- The error message computation of `assessListing`
(src/unnamed/part_001 lines 204-214): start from
`response.statusText || fallback`, then override with `body.detail` when that
field parses and is a string. -/
def assessErrorMessage (statusText : String) (body : Option JSValue) : String :=
  let fallback := if statusText = "" then "Failed to assess listing." else statusText
  match jsGet body "detail" with
  | some (JSValue.str s) => s
  | _ => fallback

/-- `assessListing` (src/unnamed/part_001 lines 184-229), response handling:
non-ok responses throw `AssessmentError (status, message)`; ok responses
resolve with the mapped `{ report, meta }` envelope. -/
def assessListing (resp : AssessHttpResponse) : AssessOutcome :=
  if resp.ok then
    match resp.envelopeJson with
    | some raw =>
        AssessOutcome.success
          { report := mapAssessment raw.report, meta := mapReportMeta raw.meta }
    | none => AssessOutcome.parseCrash
  else
    AssessOutcome.failure
      { status := resp.status
        message := assessErrorMessage resp.statusText resp.errorJson }

/-- A fix slot in the rendered assessment
(AssessmentResults component, src/frontend/src/lib/components): either a
locked placeholder or a visible fix, both carrying their 1-based number. -/
inductive FixSlot where
  | locked (number : Nat)
  | unlocked (number : Nat) (fix : TopFix)

/-- Whether a slot is a locked placeholder. -/
def FixSlot.isLockedSlot : FixSlot → Bool
  | .locked _ => true
  | .unlocked _ _ => false

/-- `topFixesLimited` (AssessmentResults): `assessment.topFixes.slice(0, 5)`. -/
def topFixesLimited (assessment : Assessment) : List TopFix :=
  assessment.topFixes.take 5

/-- The derived `hiddenFixCount` (AssessmentResults): `0` when paid, else
`Math.min(meta.hiddenFixCount ?? 0, 3)` (the field is required on
`ReportMeta`, so `?? 0` is the identity here). -/
def hiddenFixCountDerived (meta : ReportMeta) : Nat :=
  if meta.isPaid then 0 else Nat.min meta.hiddenFixCount 3

/-- `fixSlots` (AssessmentResults, src/frontend/src/lib/components lines
341-364): paid reports render one unlocked slot per truncated fix; free
reports render `min(5, hidden + fixes)` slots, locked placeholders first,
skipping any index whose fix lookup comes back empty. -/
def fixSlots (assessment : Assessment) (meta : ReportMeta) : List FixSlot :=
  let limitedFixes := topFixesLimited assessment
  if meta.isPaid then
    limitedFixes.enum.map (fun p => FixSlot.unlocked (p.1 + 1) p.2)
  else
    let hidden := hiddenFixCountDerived meta
    let totalSlots := Nat.min 5 (hidden + limitedFixes.length)
    (List.range totalSlots).filterMap (fun i =>
      if i < hidden then
        some (FixSlot.locked (i + 1))
      else
        match limitedFixes[i - hidden]? with
        | some fix => some (FixSlot.unlocked (i + 1) fix)
        | none => none)

/-- The page state `startAssessment` and `ensurePaidReady` touch
(src/unnamed/part_004, the main page component). -/
structure PageState where
  session : SessionInfo
  activeReportType : ReportType
  upgradeError : Option String
  upgradeStatus : Option String

/-- `session.credits?.available ?? 0`. -/
def availableCredits (session : SessionInfo) : Int :=
  (session.credits.map CreditSummary.available).getD 0

/-- `ensurePaidReady` (src/unnamed/part_004 lines 126-141): fails with an
error message when the session is unauthenticated or has no available credit;
otherwise reports ready without touching state. -/
def ensurePaidReady (st : PageState) : PageState × Bool :=
  if !st.session.authenticated then
    ({ st with
        upgradeError := some "Sign in to run the paid report."
        upgradeStatus := none
        activeReportType := ReportType.paid }, false)
  else if availableCredits st.session ≤ 0 then
    ({ st with
        upgradeError := some "You need at least one credit to run the paid report."
        upgradeStatus := none }, false)
  else
    (st, true)

/-- JavaScript `url.trim()`: strip leading and trailing whitespace, modelled
over the string's character list. -/
def jsTrim (s : String) : String :=
  String.mk (((s.data.dropWhile Char.isWhitespace).reverse.dropWhile
    Char.isWhitespace).reverse)

/-- Whether `startAssessment` (src/unnamed/part_004 lines 143-166) reaches the
`assessListing` fetch: it returns early on a blank trimmed url, and on a paid
run it returns early when `ensurePaidReady` reports not ready. -/
def startAssessmentSendsRequest (st : PageState) (url : String) : Bool :=
  if jsTrim url = "" then false
  else if st.activeReportType = ReportType.paid then (ensurePaidReady st).2
  else true

/-- JavaScript `path.startsWith(pre)` over strings modelled as `List Char`. -/
def jsStartsWith : List Char → List Char → Bool
  | _, [] => true
  | [], _ :: _ => false
  | d :: ds, c :: cs => (d == c) && jsStartsWith ds cs

/-- `withBase` (src/lib/api.ts lines 131-141 and src/unnamed/part_001 lines
172-182), with strings as `List Char`: absolute http(s) paths pass through;
an empty `API_BASE` (falsy) leaves the path untouched; otherwise the base is
prepended, inserting a `/` unless the path already leads with one. -/
def withBase (apiBase path : List Char) : List Char :=
  if jsStartsWith path ("http://".toList) || jsStartsWith path ("https://".toList) then
    path
  else if apiBase = [] then
    path
  else
    apiBase ++ (if jsStartsWith path ['/'] then path else '/' :: path)

/-- A path with one leading slash removed, used to phrase the claim that
`withBase` joins base and path with exactly one `/` separator. -/
def stripLeadingSlash : List Char → List Char
  | [] => []
  | c :: rest => if c = '/' then rest else c :: rest

/-- The incoming request as the `/assess` SvelteKit proxy reads it
(src/frontend/src/routes/assess, `POST`): `bodyText = none` models
`request.text()` throwing; `contentType` is the incoming content-type header. -/
structure ProxyRequest where
  bodyText : Option String
  contentType : Option String

/-- The backend response observed by the proxy: status, status text, body
text, and an optional content-type header. -/
structure BackendResponse where
  status : Nat
  statusText : String
  bodyText : String
  contentType : Option String

/-- A response the proxy hands back to its caller. -/
structure ProxyResponse where
  status : Nat
  statusText : String
  headers : List (String × String)
  body : String

/-- The proxy either returns a `Response` or throws a SvelteKit `error`. -/
inductive ProxyResult where
  | response (r : ProxyResponse)
  | httpError (status : Nat) (message : String)

/-- The `POST` handler of the `/assess` proxy
(src/frontend/src/routes/assess lines 14-51).  `backend = none` models the
single backend `fetch` rejecting.  The second component counts how many times
the backend was contacted: `0` when the request body could not be read (the
handler throws 400 before fetching), `1` otherwise (the one fetch, whether it
failed or produced a response; there is no retry). -/
def proxyPost (req : ProxyRequest) (backend : Option BackendResponse) :
    ProxyResult × Nat :=
  match req.bodyText with
  | none => (ProxyResult.httpError 400 "Unable to read request payload.", 0)
  | some _ =>
    match backend with
    | none => (ProxyResult.httpError 502 "Failed to reach backend assessor service.", 1)
    | some resp =>
      (ProxyResult.response
        { status := resp.status
          statusText := resp.statusText
          headers :=
            match resp.contentType with
            | some ct => [("content-type", ct)]
            | none => []
          body := resp.bodyText }, 1)

/-- Modelled from the spec: the Checkout Reconciliation State Machine
(spec sections 3 and 4.5) lives in the Python backend, which is not under
src/; only its README and design doc are.  States `created → completed /
expired`. -/
inductive CheckoutStatus where
  | created
  | completed
  | expired
deriving DecidableEq

/-- Modelled from the spec: a Credit (spec section 3), created only by
successful checkout reconciliation, expiring 30 days after issue, and
remembering its originating checkout session. -/
structure Credit where
  id : Nat
  owner : String
  issuedAt : Nat
  expiresAt : Nat
  redeemedAt : Option Nat
  sessionId : String

/-- Modelled from the spec: a CheckoutSession (spec section 3) with the
per-session credit-already-issued marker of section 4.5. -/
structure CheckoutSession where
  id : String
  owner : String
  status : CheckoutStatus
  creditIssued : Bool

/-- Modelled from the spec: the in-memory entitlement state the reconciliation
handler mutates - the sessions it knows and the credits issued so far. -/
structure LedgerState where
  sessions : List CheckoutSession
  credits : List Credit
  nextCreditId : Nat

/-- Modelled from the spec: the processor-side facts a confirm call carries -
the session id, whether the session is completed upstream, and whether the
payment status is paid (spec section 4.5). -/
structure ProcessorConfirmation where
  sessionId : String
  upstreamCompleted : Bool
  paymentPaid : Bool

/-- Seconds in the 30-day credit validity window (spec section 3). -/
def thirtyDays : Nat := 30 * 24 * 3600

/-- Modelled from the spec: the `POST /checkout/confirm` reconciliation
handler (spec section 4.5).  A confirm for an unknown session, a session not
completed upstream, or a payment not in status paid fails without side
effects.  Otherwise, if the per-session marker shows a credit was already
issued the call is a successful no-op; else exactly one fresh 30-day credit
is created, the session transitions to completed, and its marker is set.
Returns the new state and whether the confirmation succeeded. -/
def confirmCheckout (st : LedgerState) (conf : ProcessorConfirmation)
    (now : Nat) : LedgerState × Bool :=
  match st.sessions.find? (fun s => s.id == conf.sessionId) with
  | none => (st, false)
  | some sess =>
    if !(conf.upstreamCompleted && conf.paymentPaid) then
      (st, false)
    else if sess.creditIssued then
      (st, true)
    else
      ({ sessions := st.sessions.map (fun s =>
            if s.id == conf.sessionId then
              { s with status := CheckoutStatus.completed, creditIssued := true }
            else s)
         credits := st.credits ++
           [{ id := st.nextCreditId
              owner := sess.owner
              issuedAt := now
              expiresAt := now + thirtyDays
              redeemedAt := none
              sessionId := sess.id }]
         nextCreditId := st.nextCreditId + 1 }, true)

/-- Credits issued for a given checkout session. -/
def creditCountFor (credits : List Credit) (sessionId : String) : Nat :=
  credits.countP (fun c => c.sessionId == sessionId)

/-- Modelled from the spec: the Heuristic Scoring Engine (spec section 4.1)
lives in the Python backend, which is not under src/.  Section weights:
photos 0.35, copy 0.35, amenities_clarity 0.15, trust_signals 0.15. -/
def wPhotos : Rat := 35 / 100

/-- Modelled from the spec: the copy section weight. -/
def wCopy : Rat := 35 / 100

/-- Modelled from the spec: the amenities-clarity section weight. -/
def wAmenitiesClarity : Rat := 15 / 100

/-- Modelled from the spec: the trust-signals section weight. -/
def wTrustSignals : Rat := 15 / 100

/-- Modelled from the spec: `overall score = Σ(section score × fixed weight)`
(spec sections 4.1 and 8) over a document's four section scores. -/
def overallScore (s : RawSectionScores) : Rat :=
  s.photos * wPhotos + s.copy * wCopy +
    s.amenities_clarity * wAmenitiesClarity + s.trust_signals * wTrustSignals

/-- A section-score record is valid when each of its four scores lies in
the [0, 100] band the engine produces (spec section 4.1). -/
def validSectionScores (s : RawSectionScores) : Prop :=
  0 ≤ s.photos ∧ s.photos ≤ 100 ∧
  0 ≤ s.copy ∧ s.copy ≤ 100 ∧
  0 ≤ s.amenities_clarity ∧ s.amenities_clarity ≤ 100 ∧
  0 ≤ s.trust_signals ∧ s.trust_signals ≤ 100

/-- C2: for every valid input document, the overall score equals the sum over
the four sections of section score times fixed weight, with weights photos
0.35, copy 0.35, amenities_clarity 0.15, trust_signals 0.15 summing to 1.0,
and the overall score lies in [0, 100]. -/
theorem overallScore_weighted_sum (s : RawSectionScores)
    (h : validSectionScores s) :
    overallScore s =
      s.photos * wPhotos + s.copy * wCopy +
        s.amenities_clarity * wAmenitiesClarity + s.trust_signals * wTrustSignals ∧
    wPhotos + wCopy + wAmenitiesClarity + wTrustSignals = 1 ∧
    0 ≤ overallScore s ∧ overallScore s ≤ 100 := by
  obtain ⟨h1, h2, h3, h4, h5, h6, h7, h8⟩ := h
  refine ⟨rfl, by norm_num [wPhotos, wCopy, wAmenitiesClarity, wTrustSignals], ?_, ?_⟩ <;>
    · unfold overallScore wPhotos wCopy wAmenitiesClarity wTrustSignals
      nlinarith

/-- Witness for C2 at a concrete section-score record. -/
theorem overallScore_weighted_sum_witness :
    validSectionScores ⟨80, 60, 40, 100⟩ ∧
      (0 ≤ overallScore ⟨80, 60, 40, 100⟩ ∧ overallScore ⟨80, 60, 40, 100⟩ ≤ 100) := by
  have hv : validSectionScores ⟨80, 60, 40, 100⟩ := by
    unfold validSectionScores
    norm_num
  exact ⟨hv, (overallScore_weighted_sum ⟨80, 60, 40, 100⟩ hv).2.2⟩

/-- C5: session validation fails closed.  `fetchSession` reports
`authenticated` exactly when the response was ok and the payload's
`authenticated` field is present and truthy; in particular a non-ok response,
a missing payload, or an absent or falsy `authenticated` field all yield
`authenticated = false`, never defaulting to an authenticated identity. -/
theorem fetchSession_fails_closed (ok : Bool) (data : Option SessionPayload) :
    (fetchSession ok data).authenticated =
      (ok && jsBoolean (data.bind SessionPayload.authenticated)) := by
  cases ok <;> simp [fetchSession]

/-- C7: a paid submission reaches the `/assess` fetch exactly when the session
is authenticated with at least one available credit; when either precondition
fails, no request is issued and `ensurePaidReady` records an error message. -/
theorem paid_requires_authorization (st : PageState) (url : String)
    (hpaid : st.activeReportType = ReportType.paid) (hurl : jsTrim url ≠ "") :
    (startAssessmentSendsRequest st url = true ↔
      st.session.authenticated = true ∧ 0 < availableCredits st.session) ∧
    (startAssessmentSendsRequest st url = false →
      (ensurePaidReady st).1.upgradeError.isSome = true ∧
        (ensurePaidReady st).2 = false) := by
  have hsend : startAssessmentSendsRequest st url = (ensurePaidReady st).2 := by
    simp [startAssessmentSendsRequest, hurl, hpaid]
  rw [hsend]
  cases hauth : st.session.authenticated with
  | false => simp [ensurePaidReady, hauth]
  | true =>
    by_cases hc : availableCredits st.session ≤ 0
    · simp [ensurePaidReady, hauth, hc]
    · simp [ensurePaidReady, hauth, hc]
      omega

/-- Witness for C7: an authenticated session with one credit sends the
request; an unauthenticated one does not. -/
theorem paid_requires_authorization_witness :
    startAssessmentSendsRequest
      { session := { authenticated := true, credits := some ⟨1, none⟩ }
        activeReportType := ReportType.paid
        upgradeError := none
        upgradeStatus := none } "https://a.example" = true := by
  refine (paid_requires_authorization _ "https://a.example" rfl (by decide)).1.mpr ?_
  exact ⟨rfl, by decide⟩

/-- C10: the `/assess` proxy is a faithful passthrough.  An unreadable request
body yields a 400 without contacting the backend; a failing backend fetch
yields a 502 after the single attempt; a backend response is forwarded with
the same status, status text and body, with only the content-type header
(when present), and the backend is contacted exactly once, never again. -/
theorem proxyPost_faithful (req : ProxyRequest) (backend : Option BackendResponse) :
    (req.bodyText = none →
      proxyPost req backend =
        (ProxyResult.httpError 400 "Unable to read request payload.", 0)) ∧
    (req.bodyText ≠ none → backend = none →
      proxyPost req backend =
        (ProxyResult.httpError 502 "Failed to reach backend assessor service.", 1)) ∧
    (∀ resp : BackendResponse, req.bodyText ≠ none → backend = some resp →
      proxyPost req backend =
        (ProxyResult.response
          { status := resp.status
            statusText := resp.statusText
            headers :=
              match resp.contentType with
              | some ct => [("content-type", ct)]
              | none => []
            body := resp.bodyText }, 1)) := by
  obtain ⟨bt, ct⟩ := req
  cases bt <;> cases backend <;> simp [proxyPost]

/-- Witness for C10: a concrete backend response is forwarded verbatim. -/
theorem proxyPost_faithful_witness :
    proxyPost ⟨some "payload", some "application/json"⟩
        (some ⟨200, "OK", "result-body", some "application/json"⟩) =
      (ProxyResult.response
        { status := 200
          statusText := "OK"
          headers := [("content-type", "application/json")]
          body := "result-body" }, 1) := by
  exact (proxyPost_faithful ⟨some "payload", some "application/json"⟩
      (some ⟨200, "OK", "result-body", some "application/json"⟩)).2.2
    ⟨200, "OK", "result-body", some "application/json"⟩ (by simp) rfl

/-- C6: every non-ok response to POST /assess makes `assessListing` throw an
`AssessmentError` carrying the response status and a message equal to the
body's `detail` string when that field is a string, otherwise the status text
(or the fixed fallback when the status text is empty); it never resolves with
a report on a non-ok response. -/
theorem assessListing_error_typed (resp : AssessHttpResponse)
    (h : resp.ok = false) :
    assessListing resp =
      AssessOutcome.failure
        { status := resp.status
          message :=
            match jsGet resp.errorJson "detail" with
            | some (JSValue.str s) => s
            | _ =>
              if resp.statusText = "" then "Failed to assess listing."
              else resp.statusText } ∧
    ∀ envelope : ReportEnvelope,
      assessListing resp ≠ AssessOutcome.success envelope := by
  refine ⟨by simp [assessListing, h, assessErrorMessage], ?_⟩
  intro envelope hcontra
  rw [assessListing, h] at hcontra
  simp at hcontra

/-- Witness for C6 at a concrete 402 response whose body carries a string
`detail` field. -/
theorem assessListing_error_typed_witness :
    assessListing
        { ok := false
          status := 402
          statusText := "Payment Required"
          errorJson := some (JSValue.obj [("detail", JSValue.str "Not enough credits")])
          envelopeJson := none } =
      AssessOutcome.failure { status := 402, message := "Not enough credits" } := by
  rw [(assessListing_error_typed
    { ok := false
      status := 402
      statusText := "Payment Required"
      errorJson := some (JSValue.obj [("detail", JSValue.str "Not enough credits")])
      envelopeJson := none } rfl).1]
  rfl

/-- Sample meta used to exhibit the C3 field-name mismatch. -/
def sampleRawMeta : RawReportMeta :=
  { report_type := ReportType.free
    is_paid := false
    credit_id := none
    hidden_fix_count := 3
    credits_remaining := none
    next_credit_expiration := none }

/-- C3 as stated is false on the code: the request body `assessListing` posts
carries the keys `url`, `report_type`, `force` - there is no `address` field
and no `tier` field, and the meta object carries `report_type`, not `tier`. -/
theorem assess_interface_counterexample :
    ((assessRequestBody ⟨"https://example.com/rooms/1", ReportType.free, none⟩).map
        Prod.fst = ["url", "report_type", "force"]) ∧
    "address" ∉ (assessRequestBody
        ⟨"https://example.com/rooms/1", ReportType.free, none⟩).map Prod.fst ∧
    "tier" ∉ (assessRequestBody
        ⟨"https://example.com/rooms/1", ReportType.free, none⟩).map Prod.fst ∧
    "tier" ∉ (rawReportMetaFields sampleRawMeta).map Prod.fst := by
  decide

/-- C3 amended: the POST /assess request body carries exactly the fields
`url`, `report_type`, `force`; the ok response is an envelope of a report and
a meta, where the meta always carries `report_type`, `is_paid` and
`hidden_fix_count`, carries `credit_id` whenever one is set, and carries no
key outside the six declared by `RawReportMeta`. -/
theorem assess_interface_fields (p : AssessmentPayload) (m : RawReportMeta) :
    (assessRequestBody p).map Prod.fst = ["url", "report_type", "force"] ∧
    "report_type" ∈ (rawReportMetaFields m).map Prod.fst ∧
    "is_paid" ∈ (rawReportMetaFields m).map Prod.fst ∧
    "hidden_fix_count" ∈ (rawReportMetaFields m).map Prod.fst ∧
    (m.credit_id.isSome = true →
      "credit_id" ∈ (rawReportMetaFields m).map Prod.fst) ∧
    (∀ k ∈ (rawReportMetaFields m).map Prod.fst,
      k ∈ ["report_type", "is_paid", "credit_id", "hidden_fix_count",
           "credits_remaining", "next_credit_expiration"]) ∧
    (∀ (resp : AssessHttpResponse) (raw : RawReportEnvelope),
      resp.ok = true → resp.envelopeJson = some raw →
      assessListing resp =
        AssessOutcome.success
          { report := mapAssessment raw.report, meta := mapReportMeta raw.meta }) := by
  obtain ⟨rt, ip, cid, hfc, cr, nce⟩ := m
  refine ⟨rfl, ?_, ?_, ?_, ?_, ?_, ?_⟩
  · cases cid <;> cases cr <;> cases nce <;> simp [rawReportMetaFields, optField]
  · cases cid <;> cases cr <;> cases nce <;> simp [rawReportMetaFields, optField]
  · cases cid <;> cases cr <;> cases nce <;> simp [rawReportMetaFields, optField]
  · cases cid <;> cases cr <;> cases nce <;> simp [rawReportMetaFields, optField]
  · cases cid <;> cases cr <;> cases nce <;>
      · intro k hk
        simp [rawReportMetaFields, optField] at hk ⊢
        tauto
  · intro resp raw hok hraw
    rw [assessListing, hok, hraw]
    rfl

/-- Witness for C3 (amended) at a concrete payload, meta and ok response. -/
theorem assess_interface_fields_witness :
    "credit_id" ∈ (rawReportMetaFields
      { report_type := ReportType.paid
        is_paid := true
        credit_id := some "cr_1"
        hidden_fix_count := 0
        credits_remaining := some 2
        next_credit_expiration := none }).map Prod.fst := by
  exact (assess_interface_fields ⟨"u", ReportType.paid, some true⟩
    { report_type := ReportType.paid
      is_paid := true
      credit_id := some "cr_1"
      hidden_fix_count := 0
      credits_remaining := some 2
      next_credit_expiration := none }).2.2.2.2.1 rfl

/-- On a paid report, `fixSlots` is one unlocked slot per truncated fix. -/
lemma fixSlots_paid_eq (a : Assessment) (meta : ReportMeta)
    (h : meta.isPaid = true) :
    fixSlots a meta =
      (topFixesLimited a).enum.map (fun p => FixSlot.unlocked (p.1 + 1) p.2) := by
  simp [fixSlots, h]

/-- A range whose elements all satisfy the guard turns `filterMap` into a
`map`. -/
lemma filterMap_range_eq_map {β : Type} (n : Nat) (g : Nat → Option β)
    (f : Nat → β) (hg : ∀ i, i < n → g i = some (f i)) :
    (List.range n).filterMap g = (List.range n).map f := by
  induction n with
  | zero => simp
  | succ n ih =>
    rw [List.range_succ, List.filterMap_append, List.map_append,
      ih (fun i hi => hg i (Nat.lt_succ_of_lt hi))]
    simp [hg n (Nat.lt_succ_self n)]

/-- The derived hidden count never exceeds the cap of 3. -/
lemma hiddenFixCountDerived_le_three (meta : ReportMeta) :
    hiddenFixCountDerived meta ≤ 3 := by
  unfold hiddenFixCountDerived
  split
  · exact Nat.zero_le 3
  · exact Nat.min_le_right _ _

/-- On a free report, `fixSlots` splits into its locked placeholder prefix and
its unlocked fix suffix. -/
lemma fixSlots_free_eq (a : Assessment) (meta : ReportMeta)
    (h : meta.isPaid = false) :
    fixSlots a meta =
      ((List.range (hiddenFixCountDerived meta)).map
          (fun i => FixSlot.locked (i + 1))) ++
        ((List.range (Nat.min 5 (hiddenFixCountDerived meta +
              (topFixesLimited a).length) - hiddenFixCountDerived meta)).filterMap
          (fun j => ((topFixesLimited a)[j]?).map
            (fun fix => FixSlot.unlocked (hiddenFixCountDerived meta + j + 1) fix))) := by
  have hd := hiddenFixCountDerived meta
  set hid := hiddenFixCountDerived meta with hhid
  set L := (topFixesLimited a).length with hL
  have hle : hid ≤ Nat.min 5 (hid + L) := by
    have h3 : hid ≤ 3 := hhid ▸ hiddenFixCountDerived_le_three meta
    exact Nat.le_min.2 ⟨by omega, Nat.le_add_right hid L⟩
  rw [fixSlots]
  simp only [h, if_neg (by simp : ¬(false = true))]
  rw [← hhid, ← hL]
  rw [show Nat.min 5 (hid + L) = hid + (Nat.min 5 (hid + L) - hid) from
    (Nat.add_sub_cancel' hle).symm]
  rw [List.range_add, List.filterMap_append, List.filterMap_map]
  congr 1
  · apply filterMap_range_eq_map
    intro i hi
    simp [hi]
  · rw [Nat.add_sub_cancel' hle]
    apply List.filterMap_congr
    intro j _
    have : ¬(hid + j < hid) := by omega
    simp only [Function.comp_apply, this, if_neg this, Nat.add_sub_cancel_left]
    cases (topFixesLimited a)[j]? <;> rfl

/-- C4: the rendered list of top fixes is truncated to at most 5 entries, and
the total number of fix slots (locked placeholders plus visible fixes) never
exceeds 5. -/
theorem fixSlots_at_most_five (a : Assessment) (meta : ReportMeta) :
    (topFixesLimited a).length ≤ 5 ∧ (fixSlots a meta).length ≤ 5 := by
  have hlim : (topFixesLimited a).length ≤ 5 := by
    rw [topFixesLimited, List.length_take]
    exact Nat.min_le_left 5 _
  refine ⟨hlim, ?_⟩
  cases hp : meta.isPaid with
  | true =>
    rw [fixSlots_paid_eq a meta hp, List.length_map, List.enum_length]
    exact hlim
  | false =>
    rw [fixSlots_free_eq a meta hp]
    rw [List.length_append, List.length_map, List.length_range]
    have hfm := List.length_filterMap_le
      (fun j => ((topFixesLimited a)[j]?).map
        (fun fix =>
          FixSlot.unlocked (hiddenFixCountDerived meta + j + 1) fix))
      (List.range (Nat.min 5 (hiddenFixCountDerived meta +
        (topFixesLimited a).length) - hiddenFixCountDerived meta))
    rw [List.length_range] at hfm
    have h3 := hiddenFixCountDerived_le_three meta
    have hle : hiddenFixCountDerived meta ≤
        Nat.min 5 (hiddenFixCountDerived meta + (topFixesLimited a).length) :=
      Nat.le_min.2 ⟨by omega, Nat.le_add_right _ _⟩
    have hT : Nat.min 5 (hiddenFixCountDerived meta + (topFixesLimited a).length) ≤ 5 :=
      Nat.min_le_left _ _
    omega

/-- C9: the locked-slot invariant of the rendered fix list.  The number of
locked slots is `hiddenFixCountDerived` - `0` on a paid report,
`min(meta.hiddenFixCount, 3)` on a free one; locked slots occupy the leading
positions with only visible fixes after them; and a paid report renders
exactly one unlocked slot per truncated top fix. -/
theorem fixSlots_locked_invariant (a : Assessment) (meta : ReportMeta) :
    (fixSlots a meta).countP FixSlot.isLockedSlot = hiddenFixCountDerived meta ∧
    ((fixSlots a meta).take (hiddenFixCountDerived meta)).all
      FixSlot.isLockedSlot = true ∧
    ((fixSlots a meta).drop (hiddenFixCountDerived meta)).all
      (fun s => !FixSlot.isLockedSlot s) = true ∧
    (meta.isPaid = true →
      fixSlots a meta =
        (topFixesLimited a).enum.map (fun p => FixSlot.unlocked (p.1 + 1) p.2)) := by
  cases hp : meta.isPaid with
  | true =>
    rw [fixSlots_paid_eq a meta hp]
    have hzero : hiddenFixCountDerived meta = 0 := by
      unfold hiddenFixCountDerived
      simp [hp]
    refine ⟨?_, ?_, ?_, fun _ => rfl⟩
    · rw [hzero]
      apply List.countP_eq_zero.2
      intro s hs
      rcases List.mem_map.1 hs with ⟨p, _, rfl⟩
      simp [FixSlot.isLockedSlot]
    · rw [hzero]
      simp
    · rw [hzero, List.drop_zero, List.all_eq_true]
      intro s hs
      rcases List.mem_map.1 hs with ⟨p, _, rfl⟩
      simp [FixSlot.isLockedSlot]
  | false =>
    rw [fixSlots_free_eq a meta hp]
    have hlockedlen :
        ((List.range (hiddenFixCountDerived meta)).map
          (fun i => FixSlot.locked (i + 1))).length = hiddenFixCountDerived meta := by
      rw [List.length_map, List.length_range]
    have hunlocked : ∀ s ∈ (List.range (Nat.min 5 (hiddenFixCountDerived meta +
          (topFixesLimited a).length) - hiddenFixCountDerived meta)).filterMap
        (fun j => ((topFixesLimited a)[j]?).map
          (fun fix => FixSlot.unlocked (hiddenFixCountDerived meta + j + 1) fix)),
        FixSlot.isLockedSlot s = false := by
      intro s hs
      rcases List.mem_filterMap.1 hs with ⟨j, _, hj⟩
      rcases Option.map_eq_some'.1 hj with ⟨fix, _, rfl⟩
      rfl
    refine ⟨?_, ?_, ?_, fun habs => Bool.noConfusion habs⟩
    · rw [List.countP_append]
      have h1 : ((List.range (hiddenFixCountDerived meta)).map
          (fun i => FixSlot.locked (i + 1))).countP FixSlot.isLockedSlot =
          hiddenFixCountDerived meta := by
        rw [List.countP_map]
        have : ∀ x ∈ List.range (hiddenFixCountDerived meta),
            (FixSlot.isLockedSlot ∘ fun i => FixSlot.locked (i + 1)) x = true := by
          intro x _
          rfl
        rw [List.countP_eq_length.2 this, List.length_range]
      have h2 : ((List.range (Nat.min 5 (hiddenFixCountDerived meta +
            (topFixesLimited a).length) - hiddenFixCountDerived meta)).filterMap
          (fun j => ((topFixesLimited a)[j]?).map
            (fun fix => FixSlot.unlocked (hiddenFixCountDerived meta + j + 1) fix))).countP
            FixSlot.isLockedSlot = 0 := by
        apply List.countP_eq_zero.2
        intro s hs
        simp [hunlocked s hs]
      omega
    · rw [List.take_left' hlockedlen, List.all_eq_true]
      intro s hs
      rcases List.mem_map.1 hs with ⟨i, _, rfl⟩
      rfl
    · rw [List.drop_left' hlockedlen, List.all_eq_true]
      intro s hs
      simp [hunlocked s hs]

/-- Witness for C9 on a concrete free-tier assessment with two hidden and one
visible fix: the rendered slot list counts exactly two locked slots. -/
theorem fixSlots_locked_invariant_witness :
    (fixSlots
        { overall := 70
          sectionScores := ⟨70, 70, 70, 70⟩
          photoStats := ⟨10, [], [], 0, 5, false, none, false, true⟩
          copyStats := ⟨100, none, none, false⟩
          trustSignals := ⟨0, [], false, 0, false, 0, 0⟩
          amenities := ⟨[], [], [], []⟩
          topFixes := [⟨ImpactLevel.high, "add photos", "upload more"⟩] }
        { reportType := ReportType.free
          isPaid := false
          creditId := none
          hiddenFixCount := 2
          creditsRemaining := none
          nextCreditExpiration := none }).countP FixSlot.isLockedSlot = 2 := by
  have h := (fixSlots_locked_invariant
    { overall := 70
      sectionScores := ⟨70, 70, 70, 70⟩
      photoStats := ⟨10, [], [], 0, 5, false, none, false, true⟩
      copyStats := ⟨100, none, none, false⟩
      trustSignals := ⟨0, [], false, 0, false, 0, 0⟩
      amenities := ⟨[], [], [], []⟩
      topFixes := [⟨ImpactLevel.high, "add photos", "upload more"⟩] }
    { reportType := ReportType.free
      isPaid := false
      creditId := none
      hiddenFixCount := 2
      creditsRemaining := none
      nextCreditExpiration := none }).1
  rw [h]
  rfl

/-- A prefix of a list is also a prefix of any extension of it. -/
lemma jsStartsWith_append (s t pre : List Char)
    (h : jsStartsWith s pre = true) : jsStartsWith (s ++ t) pre = true := by
  induction pre generalizing s with
  | nil => simp [jsStartsWith]
  | cons c cs ih =>
    cases s with
    | nil => exact absurd h (by simp [jsStartsWith])
    | cons d ds =>
      simp only [jsStartsWith, Bool.and_eq_true] at h
      simp only [List.cons_append, jsStartsWith, Bool.and_eq_true]
      exact ⟨h.1, ih ds h.2⟩

/-- A path that starts with a slash is that slash followed by its stripped
remainder. -/
lemma startsWith_slash_eq (p : List Char)
    (h : jsStartsWith p ['/'] = true) : p = '/' :: stripLeadingSlash p := by
  cases p with
  | nil => simp [jsStartsWith] at h
  | cons c cs =>
    have hc : c = '/' := by
      simpa [jsStartsWith] using h
    subst hc
    simp [stripLeadingSlash]

/-- A path with no leading slash strips to itself. -/
lemma stripLeadingSlash_of_no_slash (p : List Char)
    (h : jsStartsWith p ['/'] = false) : stripLeadingSlash p = p := by
  cases p with
  | nil => rfl
  | cons c cs =>
    have hc : ¬(c = '/') := by
      simpa [jsStartsWith] using h
    simp [stripLeadingSlash, hc]

/-- Absolute http(s) paths pass through `withBase` unchanged. -/
lemma withBase_of_absolute (base p : List Char)
    (h : jsStartsWith p ("http://".toList) = true ∨
      jsStartsWith p ("https://".toList) = true) :
    withBase base p = p := by
  unfold withBase
  rcases h with h | h <;>
    · rw [h]
      rw [if_pos (by simp)]

/-- With an empty base, `withBase` is the identity. -/
lemma withBase_nil (p : List Char) : withBase [] p = p := by
  unfold withBase
  split
  · rfl
  · simp

/-- With a nonempty base and a relative path, `withBase` prepends the base. -/
lemma withBase_append_form (base p : List Char)
    (h1 : jsStartsWith p ("http://".toList) = false)
    (h2 : jsStartsWith p ("https://".toList) = false)
    (hb : base ≠ []) :
    withBase base p =
      base ++ (if jsStartsWith p ['/'] then p else '/' :: p) := by
  unfold withBase
  rw [if_neg (by rw [h1, h2]; simp), if_neg hb]

/-- C8: `withBase` preserves absolute http(s) URLs unchanged; with an empty
base every other path is returned as is, and with a nonempty base it is
returned as the base, exactly one `/` separator, and the path stripped of its
own leading slash; and `withBase` is idempotent whenever the base is empty or
itself an absolute http(s) URL. -/
theorem withBase_spec (base p : List Char) :
    ((jsStartsWith p ("http://".toList) = true ∨
        jsStartsWith p ("https://".toList) = true) → withBase base p = p) ∧
    (jsStartsWith p ("http://".toList) = false →
      jsStartsWith p ("https://".toList) = false →
      base = [] → withBase base p = p) ∧
    (jsStartsWith p ("http://".toList) = false →
      jsStartsWith p ("https://".toList) = false →
      base ≠ [] → withBase base p = base ++ '/' :: stripLeadingSlash p) ∧
    ((base = [] ∨ jsStartsWith base ("http://".toList) = true ∨
        jsStartsWith base ("https://".toList) = true) →
      withBase base (withBase base p) = withBase base p) := by
  refine ⟨withBase_of_absolute base p, ?_, ?_, ?_⟩
  · intro _ _ hb
    subst hb
    exact withBase_nil p
  · intro h1 h2 hb
    rw [withBase_append_form base p h1 h2 hb]
    cases hs : jsStartsWith p ['/'] with
    | true =>
      simp only [if_true]
      conv_lhs => rw [startsWith_slash_eq p hs]
    | false =>
      simp only [Bool.false_eq_true, if_false]
      rw [stripLeadingSlash_of_no_slash p hs]
  · intro hb
    rcases hb with hb | hb | hb
    · subst hb
      rw [withBase_nil, withBase_nil]
    · by_cases habs : (jsStartsWith p ("http://".toList) = true ∨
          jsStartsWith p ("https://".toList) = true)
      · rw [withBase_of_absolute base p habs]
        exact withBase_of_absolute base p habs
      · have h1 : jsStartsWith p ("http://".toList) = false := by
          cases hv : jsStartsWith p ("http://".toList)
          · rfl
          · exact absurd (Or.inl hv) habs
        have h2 : jsStartsWith p ("https://".toList) = false := by
          cases hv : jsStartsWith p ("https://".toList)
          · rfl
          · exact absurd (Or.inr hv) habs
        have hbne : base ≠ [] := by
          intro hnil
          rw [hnil] at hb
          exact absurd hb (by decide)
        rw [withBase_append_form base p h1 h2 hbne]
        exact withBase_of_absolute base _
          (Or.inl (jsStartsWith_append base _ _ hb))
    · by_cases habs : (jsStartsWith p ("http://".toList) = true ∨
          jsStartsWith p ("https://".toList) = true)
      · rw [withBase_of_absolute base p habs]
        exact withBase_of_absolute base p habs
      · have h1 : jsStartsWith p ("http://".toList) = false := by
          cases hv : jsStartsWith p ("http://".toList)
          · rfl
          · exact absurd (Or.inl hv) habs
        have h2 : jsStartsWith p ("https://".toList) = false := by
          cases hv : jsStartsWith p ("https://".toList)
          · rfl
          · exact absurd (Or.inr hv) habs
        have hbne : base ≠ [] := by
          intro hnil
          rw [hnil] at hb
          exact absurd hb (by decide)
        rw [withBase_append_form base p h1 h2 hbne]
        exact withBase_of_absolute base _
          (Or.inr (jsStartsWith_append base _ _ hb))

/-- Witness for C8: joining a concrete absolute base with `/assess`. -/
theorem withBase_spec_witness :
    withBase ("https://api.example.com".toList) ("/assess".toList) =
      "https://api.example.com".toList ++
        '/' :: stripLeadingSlash ("/assess".toList) :=
  (withBase_spec ("https://api.example.com".toList) ("/assess".toList)).2.2.1
    (by decide) (by decide) (by decide)

/-- A confirm on a session whose credit marker is already set is a successful
no-op. -/
lemma confirmCheckout_marker (s1 : LedgerState) (conf : ProcessorConfirmation)
    (t : Nat) (sess1 : CheckoutSession)
    (hfind : s1.sessions.find? (fun s => s.id == conf.sessionId) = some sess1)
    (hok : (conf.upstreamCompleted && conf.paymentPaid) = true)
    (hmark : sess1.creditIssued = true) :
    confirmCheckout s1 conf t = (s1, true) := by
  unfold confirmCheckout
  rw [hfind]
  simp [hok, hmark]

/-- C1: confirming the same checkout session twice issues exactly one credit.
For a session no credit was issued for yet, a second run of the reconciliation
handler leaves the issued credit set unchanged, the session never accumulates
more than one credit, and a successful confirmation leaves exactly one credit
for it. -/
theorem confirmCheckout_idempotent (st : LedgerState)
    (conf : ProcessorConfirmation) (now now' : Nat)
    (hfresh : ∀ s ∈ st.sessions, s.id = conf.sessionId → s.creditIssued = false)
    (hnone : creditCountFor st.credits conf.sessionId = 0) :
    (confirmCheckout (confirmCheckout st conf now).1 conf now').1.credits =
      (confirmCheckout st conf now).1.credits ∧
    creditCountFor (confirmCheckout st conf now).1.credits conf.sessionId ≤ 1 ∧
    ((confirmCheckout st conf now).2 = true →
      creditCountFor (confirmCheckout st conf now).1.credits conf.sessionId = 1) := by
  cases hfind : st.sessions.find? (fun s => s.id == conf.sessionId) with
  | none =>
    have hstep : ∀ t : Nat, confirmCheckout st conf t = (st, false) := by
      intro t
      unfold confirmCheckout
      rw [hfind]
    rw [hstep now, hstep now']
    exact ⟨rfl, Nat.le_trans (Nat.le_of_eq hnone) (Nat.zero_le 1),
      fun h => Bool.noConfusion h⟩
  | some sess =>
    have hsid : sess.id = conf.sessionId := by
      have hp := List.find?_some hfind
      simpa using hp
    have hmem := List.mem_of_find?_eq_some hfind
    have hfalse : sess.creditIssued = false := hfresh sess hmem hsid
    by_cases hok : (conf.upstreamCompleted && conf.paymentPaid) = true
    · have hstep : confirmCheckout st conf now =
          ({ sessions := st.sessions.map (fun s =>
                if s.id == conf.sessionId then
                  { s with status := CheckoutStatus.completed, creditIssued := true }
                else s)
             credits := st.credits ++
               [{ id := st.nextCreditId
                  owner := sess.owner
                  issuedAt := now
                  expiresAt := now + thirtyDays
                  redeemedAt := none
                  sessionId := sess.id }]
             nextCreditId := st.nextCreditId + 1 }, true) := by
        unfold confirmCheckout
        rw [hfind]
        simp [hok, hfalse]
      have hcount : creditCountFor
          (confirmCheckout st conf now).1.credits conf.sessionId = 1 := by
        simp only [hstep]
        unfold creditCountFor at hnone ⊢
        rw [List.countP_append, hnone]
        simp [hsid]
      have hfind2 : (confirmCheckout st conf now).1.sessions.find?
          (fun s => s.id == conf.sessionId) =
          some { sess with
                 status := CheckoutStatus.completed
                 creditIssued := true } := by
        simp only [hstep]
        rw [List.find?_map]
        have hpf : ((fun s : CheckoutSession => s.id == conf.sessionId) ∘
            (fun s => if s.id == conf.sessionId then
              { s with status := CheckoutStatus.completed, creditIssued := true }
            else s)) = (fun s : CheckoutSession => s.id == conf.sessionId) := by
          funext s
          by_cases h : s.id = conf.sessionId <;> simp [h]
        rw [hpf, hfind]
        simp only [Option.map_some']
        have hbeq : (sess.id == conf.sessionId) = true := by simp [hsid]
        rw [if_pos hbeq]
      have hsecond := confirmCheckout_marker ((confirmCheckout st conf now).1)
        conf now' _ hfind2 hok rfl
      exact ⟨by rw [hsecond], Nat.le_of_eq hcount, fun _ => hcount⟩
    · have hokf : (conf.upstreamCompleted && conf.paymentPaid) = false := by
        revert hok
        cases conf.upstreamCompleted && conf.paymentPaid <;> simp
      have hbranch : ∀ t : Nat, confirmCheckout st conf t = (st, false) := by
        intro t
        unfold confirmCheckout
        rw [hfind, hokf]
        rfl
      rw [hbranch now, hbranch now']
      exact ⟨rfl, Nat.le_trans (Nat.le_of_eq hnone) (Nat.zero_le 1),
        fun h => Bool.noConfusion h⟩

/-- A one-session sample ledger for exercising checkout confirmation. -/
def sampleLedger : LedgerState :=
  { sessions := [⟨"cs_1", "host@example.com", CheckoutStatus.created, false⟩]
    credits := []
    nextCreditId := 0 }

/-- A sample processor confirmation for the session of `sampleLedger`. -/
def sampleConf : ProcessorConfirmation :=
  { sessionId := "cs_1", upstreamCompleted := true, paymentPaid := true }

/-- Witness for C1: a fresh created session confirmed with a paid processor
status yields exactly one credit. -/
theorem confirmCheckout_idempotent_witness :
    creditCountFor (confirmCheckout sampleLedger sampleConf 1000).1.credits
      "cs_1" = 1 := by
  have h := confirmCheckout_idempotent sampleLedger sampleConf 1000 2000
    (by decide) rfl
  exact h.2.2 (by decide)

end HostScore
